import Mathlib

/-!
Verification of the mcp-snes SNES emulator against its specification.

The development shallowly embeds the parts of the code that the claims
touch:

- the LoROM/HiROM detection routine detectHiRom from the browser UI
  bundle (it strips the 512-byte copier header and inspects the
  checksum/complement pairs);
- the Apu object from the bundled SnesJs core (timers, control register,
  port file, RAM shadowing, state snapshot restore);
- the frame-scheduling policy of EmulatorService.pressButtonAsync and
  EmulatorService.waitFramesAsync.

JS byte arrays (Uint8Array) are embedded as a length plus a total index
function Nat to Nat; stores into them mask the value with 0xff, and
plain JS number properties keep the raw value.  The SPC700 and DSP
sub-objects live in the snes-core bundle whose files are not part of
this tree, so their states are type parameters and their entry points
(cycle, read, write, setState) are abstract function arguments.
-/

namespace McpSnes

/-- A JS byte array (Uint8Array view of the ROM image): a length and a
total index function.  In the source every element access is guarded by
a length comparison, so out-of-range values are never observed. -/
structure ByteSeq where
  length : Nat
  get : Nat → Nat

/-- data.slice(n): the elements from index n on. -/
def ByteSeq.slice (b : ByteSeq) (n : Nat) : ByteSeq :=
  { length := b.length - n, get := fun i => b.get (i + n) }

/-! ## LoROM/HiROM detection (function detectHiRom in the UI bundle) -/

/-- Copier-header stripping: drop the first 512 bytes when the image
length is 512 mod 1024, as in the first lines of detectHiRom. -/
def stripHeader (data : ByteSeq) : ByteSeq :=
  if data.length % 1024 = 512 then data.slice 512 else data

/-- The LoROM checksum test of detectHiRom: the 16-bit checksum pair read
at 0x7FDC..0x7FDF must sum to 0xFFFF, and the image must reach 0x7FE0. -/
def loromValid (data : ByteSeq) : Bool :=
  if 0x7FE0 ≤ data.length then
    ((data.get 0x7FDC ||| (data.get 0x7FDD <<< 8)) +
      (data.get 0x7FDE ||| (data.get 0x7FDF <<< 8))) &&& 0xFFFF == 0xFFFF
  else false

/-- The HiROM checksum test of detectHiRom, at 0xFFDC..0xFFDF. -/
def hiromValid (data : ByteSeq) : Bool :=
  if 0xFFE0 ≤ data.length then
    ((data.get 0xFFDC ||| (data.get 0xFFDD <<< 8)) +
      (data.get 0xFFDE ||| (data.get 0xFFDF <<< 8))) &&& 0xFFFF == 0xFFFF
  else false

/-- The map-mode nibble value that detectHiRom accepts as HiROM in the
tie-break branch (the literal 3 in the source's hiType === 3). -/
def hiRomMapModeCode : Nat := 3

/-- The decision part of detectHiRom, applied to the stripped image. -/
def detectIsHirom (data : ByteSeq) : Bool :=
  if hiromValid data && !loromValid data then true
  else if hiromValid data && loromValid data then
    (if 0xFFD6 ≤ data.length then data.get 0xFFD5 >>> 4 else 0) == hiRomMapModeCode
  else false

/-- detectHiRom: strip the copier header, then decide the addressing mode
on the stripped data; returns the stripped data and the HiROM flag. -/
def detectHiRom (data : ByteSeq) : ByteSeq × Bool :=
  let d := stripHeader data
  (d, detectIsHirom d)

/-- Modelled from the spec: the cartridge load entry point
(Snes.loadRom and the cartridge constructor) lives in the snes-core
bundle, which is not under this tree; per spec section 4.1 it fails with
InvalidRom when the post-strip length is below the minimum header region
size. -/
inductive LoadError where
  | invalidRom
deriving DecidableEq

/-- Modelled from the spec: the minimum header region size (the end of
the LoROM header region, the same bound detectHiRom uses before reading
the LoROM checksum pair). -/
def minHeaderRegionSize : Nat := 0x7FE0

/-- Modelled from the spec: loadCartridge strips the copier header via
detectHiRom and fails with InvalidRom when the stripped image is shorter
than the minimum header region. -/
def loadCartridge (bytes : ByteSeq) : Except LoadError (ByteSeq × Bool) :=
  let d := detectHiRom bytes
  if d.1.length < minHeaderRegionSize then Except.error LoadError.invalidRom
  else Except.ok d

theorem hiromValid_length {data : ByteSeq} (h : hiromValid data = true) :
    0xFFE0 ≤ data.length := by
  unfold hiromValid at h
  by_cases hl : 0xFFE0 ≤ data.length
  · exact hl
  · simp [hl] at h

/-- Claim C1: after copier-header stripping, detection returns LoROM when
only the LoROM checksum pair is valid, HiROM when only the HiROM pair is
valid, and when both pairs are valid it returns HiROM exactly when the
high nibble of the map-mode byte (0xFFD5) equals the HiROM map-mode code. -/
theorem detectHiRom_mode_selection (raw : ByteSeq) :
    (loromValid (stripHeader raw) = true → hiromValid (stripHeader raw) = false →
      detectHiRom raw = (stripHeader raw, false)) ∧
    (hiromValid (stripHeader raw) = true → loromValid (stripHeader raw) = false →
      detectHiRom raw = (stripHeader raw, true)) ∧
    (hiromValid (stripHeader raw) = true → loromValid (stripHeader raw) = true →
      (detectHiRom raw).2 =
        ((stripHeader raw).get 0xFFD5 >>> 4 == hiRomMapModeCode)) := by
  refine ⟨?_, ?_, ?_⟩
  · intro hlo hhi
    simp [detectHiRom, detectIsHirom, hlo, hhi]
  · intro hhi hlo
    simp [detectHiRom, detectIsHirom, hlo, hhi]
  · intro hhi hlo
    have hlen : (0xFFD6 : Nat) ≤ (stripHeader raw).length :=
      le_trans (by norm_num) (hiromValid_length hhi)
    simp [detectHiRom, detectIsHirom, hlo, hhi, hlen]

/-- A synthetic image with only the LoROM checksum pair valid. -/
def romLoOnly : ByteSeq :=
  { length := 0x7FE0, get := fun i => if i = 0x7FDE ∨ i = 0x7FDF then 0xFF else 0 }

/-- A synthetic image with only the HiROM checksum pair valid. -/
def romHiOnly : ByteSeq :=
  { length := 0xFFE0, get := fun i => if i = 0xFFDE ∨ i = 0xFFDF then 0xFF else 0 }

/-- A synthetic image with both checksum pairs valid and a zero map-mode
byte. -/
def romBothValid : ByteSeq :=
  { length := 0xFFE0,
    get := fun i =>
      if i = 0x7FDE ∨ i = 0x7FDF ∨ i = 0xFFDE ∨ i = 0xFFDF then 0xFF else 0 }

/-- Witness for claim C1: the three detection branches at concrete
images. -/
theorem detectHiRom_mode_selection_witness :
    (loromValid (stripHeader romLoOnly) = true ∧
      hiromValid (stripHeader romLoOnly) = false ∧
      detectHiRom romLoOnly = (stripHeader romLoOnly, false)) ∧
    (hiromValid (stripHeader romHiOnly) = true ∧
      loromValid (stripHeader romHiOnly) = false ∧
      detectHiRom romHiOnly = (stripHeader romHiOnly, true)) ∧
    (hiromValid (stripHeader romBothValid) = true ∧
      loromValid (stripHeader romBothValid) = true ∧
      (detectHiRom romBothValid).2 =
        ((stripHeader romBothValid).get 0xFFD5 >>> 4 == hiRomMapModeCode)) := by
  refine ⟨⟨by decide, by decide, ?_⟩, ⟨by decide, by decide, ?_⟩, ⟨by decide, by decide, ?_⟩⟩
  · exact (detectHiRom_mode_selection romLoOnly).1 (by decide) (by decide)
  · exact (detectHiRom_mode_selection romHiOnly).2.1 (by decide) (by decide)
  · exact (detectHiRom_mode_selection romBothValid).2.2 (by decide) (by decide)

/-- Claim C5: an input whose length is 512 mod 1024 has its leading 512
bytes stripped before the header is inspected, and an input whose
post-strip length is below the minimum header region size fails to load
with InvalidRom. -/
theorem loadCartridge_strip_and_reject (bytes : ByteSeq) :
    (bytes.length % 1024 = 512 →
      detectHiRom bytes = (bytes.slice 512, detectIsHirom (bytes.slice 512))) ∧
    ((stripHeader bytes).length < minHeaderRegionSize →
      loadCartridge bytes = Except.error LoadError.invalidRom) := by
  constructor
  · intro h
    simp [detectHiRom, stripHeader, h]
  · intro h
    simp [loadCartridge, detectHiRom, h]

/-- Witness for claim C5: a 512-byte image is stripped to nothing and
rejected. -/
theorem loadCartridge_strip_and_reject_witness :
    ((ByteSeq.mk 512 fun _ => 0).length % 1024 = 512 ∧
      detectHiRom (ByteSeq.mk 512 fun _ => 0) =
        ((ByteSeq.mk 512 fun _ => 0).slice 512,
          detectIsHirom ((ByteSeq.mk 512 fun _ => 0).slice 512))) ∧
    ((stripHeader (ByteSeq.mk 512 fun _ => 0)).length < minHeaderRegionSize ∧
      loadCartridge (ByteSeq.mk 512 fun _ => 0) =
        Except.error LoadError.invalidRom) := by
  constructor
  · exact ⟨by decide, (loadCartridge_strip_and_reject _).1 (by decide)⟩
  · exact ⟨by decide, (loadCartridge_strip_and_reject _).2 (by decide)⟩

/-! ## APU (function Apu in the bundled SnesJs core)

The Apu object owns 64 KB of RAM, the CPU/APU port file, the DSP address
latch, the boot-ROM visibility flag and three timers.  The source keeps
each timer in five scalar fields timerNint / timerNdiv / timerNtarget /
timerNcounter / timerNenabled; the embedding groups the five fields of
timer N into one Timer value. -/

structure Timer where
  int : Nat
  div : Nat
  target : Nat
  counter : Nat
  enabled : Bool
deriving DecidableEq

/-- The Apu state.  S and D are the states of the SPC700 and DSP
sub-objects, whose sources are in the snes-core bundle and not in this
tree; every operation that steps into them takes the corresponding
function as an argument. -/
structure Apu (S D : Type) where
  spc : S
  dsp : D
  ram : Nat → Nat
  spcWritePorts : Nat → Nat
  spcReadPorts : Nat → Nat
  dspAdr : Nat
  dspRomReadable : Bool
  cycles : Nat
  timer1 : Timer
  timer2 : Timer
  timer3 : Timer

/-- The fixed 64-byte IPL boot ROM from the Apu constructor. -/
def bootRom : List Nat :=
  [0xcd, 0xef, 0xbd, 0xe8, 0x00, 0xc6, 0x1d, 0xd0, 0xfc, 0x8f, 0xaa, 0xf4,
   0x8f, 0xbb, 0xf5, 0x78, 0xcc, 0xf4, 0xd0, 0xfb, 0x2f, 0x19, 0xeb, 0xf4,
   0xd0, 0xfc, 0x7e, 0xf4, 0xd0, 0x0b, 0xe4, 0xf5, 0xcb, 0xf4, 0xd7, 0x00,
   0xfc, 0xd0, 0xf3, 0xab, 0x01, 0x10, 0xef, 0x7e, 0xf4, 0x10, 0xeb, 0xba,
   0xf6, 0xda, 0x00, 0xba, 0xf4, 0xc4, 0xf4, 0xdd, 0x5d, 0xd0, 0xdb, 0x1f,
   0x00, 0x00, 0xc0, 0xff]

/-- Point update of an embedded byte array. -/
def setIdx (f : Nat → Nat) (k v : Nat) : Nat → Nat :=
  fun i => if i = k then v else f i

/-- Apu.reset: cleared RAM and ports, boot ROM visible, all timers
disabled and zeroed. -/
def Apu.mkReset {S D : Type} (spc0 : S) (dsp0 : D) : Apu S D :=
  { spc := spc0, dsp := dsp0,
    ram := fun _ => 0, spcWritePorts := fun _ => 0, spcReadPorts := fun _ => 0,
    dspAdr := 0, dspRomReadable := true, cycles := 0,
    timer1 := ⟨0, 0, 0, 0, false⟩, timer2 := ⟨0, 0, 0, 0, false⟩,
    timer3 := ⟨0, 0, 0, 0, false⟩ }

/-- One timer block of Apu.cycle: when the interval countdown hits zero
it is reloaded (128 for timers 1 and 2, 16 for timer 3) and, if the
timer is enabled, the byte divider advances and on reaching the target
resets while the 4-bit visible counter advances masked with 0xf; the
countdown then decrements. -/
def tickTimer (reload : Nat) (t : Timer) : Timer :=
  let t1 :=
    if t.int = 0 then
      let t2 := { t with int := reload }
      if t2.enabled then
        let d := (t2.div + 1) &&& 0xff
        if d = t2.target then { t2 with div := 0, counter := (t2.counter + 1) &&& 0xf }
        else { t2 with div := d }
      else t2
    else t
  { t1 with int := t1.int - 1 }

/-- Apu.cycle: one SPC700 cycle, a DSP cycle every 32 APU cycles, then
the three timer blocks, then the cycle counter advances. -/
def Apu.cycle {S D : Type} (spcCycle : S → S) (dspCycle : D → D)
    (a : Apu S D) : Apu S D :=
  let a1 := { a with spc := spcCycle a.spc }
  let a2 := if a1.cycles &&& 0x1f = 0 then { a1 with dsp := dspCycle a1.dsp } else a1
  let a3 := { a2 with
    timer1 := tickTimer 128 a2.timer1,
    timer2 := tickTimer 128 a2.timer2,
    timer3 := tickTimer 16 a2.timer3 }
  { a3 with cycles := a3.cycles + 1 }

/-- Apu.read: the register file switch over adr & 0xffff, with the boot
ROM window at 0xffc0 and above when readable, and RAM otherwise.  The
timer counter registers 0xfd..0xff are clear-on-read, so the result is
the value together with the successor state. -/
def Apu.read {S D : Type} (dspRead : D → Nat → Nat) (a : Apu S D)
    (adr0 : Nat) : Nat × Apu S D :=
  let adr := adr0 &&& 0xffff
  if adr = 0xf0 ∨ adr = 0xf1 ∨ adr = 0xfa ∨ adr = 0xfb ∨ adr = 0xfc then (0, a)
  else if adr = 0xf2 then (a.dspAdr, a)
  else if adr = 0xf3 then (dspRead a.dsp (a.dspAdr &&& 0x7f), a)
  else if 0xf4 ≤ adr ∧ adr ≤ 0xf9 then (a.spcReadPorts (adr - 0xf4), a)
  else if adr = 0xfd then
    (a.timer1.counter, { a with timer1 := { a.timer1 with counter := 0 } })
  else if adr = 0xfe then
    (a.timer2.counter, { a with timer2 := { a.timer2 with counter := 0 } })
  else if adr = 0xff then
    (a.timer3.counter, { a with timer3 := { a.timer3 with counter := 0 } })
  else if 0xffc0 ≤ adr ∧ a.dspRomReadable = true then
    (bootRom.getD (adr &&& 0x3f) 0, a)
  else (a.ram adr, a)

/-- Apu.write: the register file switch over adr & 0xffff.  The source's
cases 0xf8 and 0xf9 have no break and fall through into the 0xfa case,
so those two writes also land in timer 1's target register.  After the
switch the value is unconditionally shadowed into RAM. -/
def Apu.write {S D : Type} (dspWrite : D → Nat → Nat → D) (a : Apu S D)
    (adr0 v : Nat) : Apu S D :=
  let adr := adr0 &&& 0xffff
  let a1 :=
    if adr = 0xf0 then a
    else if adr = 0xf1 then
      let t1 :=
        if a.timer1.enabled = false ∧ 0 < v &&& 0x01 then
          { a.timer1 with div := 0, counter := 0 }
        else a.timer1
      let t2 :=
        if a.timer2.enabled = false ∧ 0 < v &&& 0x02 then
          { a.timer2 with div := 0, counter := 0 }
        else a.timer2
      let t3 :=
        if a.timer3.enabled = false ∧ 0 < v &&& 0x04 then
          { a.timer3 with div := 0, counter := 0 }
        else a.timer3
      let t1 := { t1 with enabled := decide (0 < v &&& 0x01) }
      let t2 := { t2 with enabled := decide (0 < v &&& 0x02) }
      let t3 := { t3 with enabled := decide (0 < v &&& 0x04) }
      let rp :=
        if 0 < v &&& 0x10 then setIdx (setIdx a.spcReadPorts 0 0) 1 0
        else a.spcReadPorts
      let rp := if 0 < v &&& 0x20 then setIdx (setIdx rp 2 0) 3 0 else rp
      { a with timer1 := t1, timer2 := t2, timer3 := t3,
               dspRomReadable := decide (0 < v &&& 0x80), spcReadPorts := rp }
    else if adr = 0xf2 then { a with dspAdr := v }
    else if adr = 0xf3 then
      if a.dspAdr < 0x80 then { a with dsp := dspWrite a.dsp a.dspAdr v } else a
    else if 0xf4 ≤ adr ∧ adr ≤ 0xf7 then
      { a with spcWritePorts := setIdx a.spcWritePorts (adr - 0xf4) (v &&& 0xff) }
    else if adr = 0xf8 ∨ adr = 0xf9 then
      let a2 := { a with spcReadPorts := setIdx a.spcReadPorts (adr - 0xf4) (v &&& 0xff) }
      { a2 with timer1 := { a2.timer1 with target := v } }
    else if adr = 0xfa then { a with timer1 := { a.timer1 with target := v } }
    else if adr = 0xfb then { a with timer2 := { a.timer2 with target := v } }
    else if adr = 0xfc then { a with timer3 := { a.timer3 with target := v } }
    else a
  { a1 with ram := setIdx a1.ram adr (v &&& 0xff) }

/-- Unit stand-ins for the snes-core DSP entry points, used by concrete
witnesses. -/
def dspWrite0 : Unit → Nat → Nat → Unit := fun d _ _ => d

/-- Unit stand-in for the snes-core DSP read entry point. -/
def dspRead0 : Unit → Nat → Nat := fun _ _ => 0

/-- A freshly reset Apu with unit SPC700 and DSP states. -/
def apu0 : Apu Unit Unit := Apu.mkReset () ()

theorem and_0xff_eq_mod (v : Nat) : v &&& 0xff = v % 256 := by
  simpa using Nat.and_pow_two_sub_one_eq_mod v 8

theorem and_0xff_of_lt {v : Nat} (h : v < 256) : v &&& 0xff = v := by
  rw [and_0xff_eq_mod]
  exact Nat.mod_eq_of_lt h

theorem and_0xffff_eq_mod (v : Nat) : v &&& 0xffff = v % 65536 := by
  simpa using Nat.and_pow_two_sub_one_eq_mod v 16

theorem and_0xffff_of_le {adr : Nat} (h : adr ≤ 0xffff) : adr &&& 0xffff = adr := by
  rw [and_0xffff_eq_mod]
  exact Nat.mod_eq_of_lt (lt_of_le_of_lt h (by norm_num))

/-- Claim C10: every APU write also shadows the (byte-masked) value into
RAM at the masked address, whatever register the address decodes to. -/
theorem apu_write_shadows_ram {S D : Type} (dspW : D → Nat → Nat → D)
    (a : Apu S D) (adr v : Nat) (h : v < 256) :
    (Apu.write dspW a adr v).ram (adr &&& 0xffff) = v := by
  have hm : (Apu.write dspW a adr v).ram (adr &&& 0xffff) = v &&& 0xff := by
    simp only [Apu.write, setIdx, if_pos rfl, ite_true]
  rw [hm, and_0xff_of_lt h]

/-- Witness for claim C10: a write to the control register address lands
in RAM as well. -/
theorem apu_write_shadows_ram_witness :
    (0x42 : Nat) < 256 ∧ (Apu.write dspWrite0 apu0 0xf1 0x42).ram (0xf1 &&& 0xffff) = 0x42 :=
  ⟨by decide, apu_write_shadows_ram dspWrite0 apu0 0xf1 0x42 (by decide)⟩

/-- Claim C8 (code bug): the source's switch cases for 0xf8 and 0xf9 fall
through into the 0xfa case, so a write to either auxiliary read-port
address also overwrites timer 1's target register; here the effect is
evaluated at the failing input write(0xf8, 0x42) and write(0xf9, 0x37)
from the reset state. -/
theorem apu_write_f8_clobbers_timer1_target :
    (Apu.write dspWrite0 apu0 0xf8 0x42).spcReadPorts 4 = 0x42 ∧
    (Apu.write dspWrite0 apu0 0xf8 0x42).timer1.target = 0x42 ∧
    (Apu.write dspWrite0 apu0 0xf9 0x37).spcReadPorts 5 = 0x37 ∧
    (Apu.write dspWrite0 apu0 0xf9 0x37).timer1.target = 0x37 ∧
    apu0.timer1.target = 0 ∧
    (Apu.write dspWrite0 apu0 0xf8 0x42).timer2.target = 0 ∧
    (Apu.write dspWrite0 apu0 0xf8 0x42).timer3.target = 0 := by
  refine ⟨by decide, by decide, by decide, by decide, by decide, by decide, by decide⟩

theorem cycle_timer1 {S D : Type} (fS : S → S) (fD : D → D) (a : Apu S D) :
    (Apu.cycle fS fD a).timer1 = tickTimer 128 a.timer1 := by
  unfold Apu.cycle
  dsimp only
  split <;> rfl

theorem cycle_timer2 {S D : Type} (fS : S → S) (fD : D → D) (a : Apu S D) :
    (Apu.cycle fS fD a).timer2 = tickTimer 128 a.timer2 := by
  unfold Apu.cycle
  dsimp only
  split <;> rfl

theorem cycle_timer3 {S D : Type} (fS : S → S) (fD : D → D) (a : Apu S D) :
    (Apu.cycle fS fD a).timer3 = tickTimer 16 a.timer3 := by
  unfold Apu.cycle
  dsimp only
  split <;> rfl

/-- A concrete APU run that drives timer 3 to a full visible counter:
from reset, set timer 3's divisor target to 1, enable timer 3, and run
240 cycles.  The counter is then 15, and it was never read. -/
def apuFullCounter : Apu Unit Unit :=
  (Apu.cycle id id)^[240] (Apu.write dspWrite0 (Apu.write dspWrite0 apu0 0xfc 1) 0xf1 4)

set_option maxRecDepth 40000 in
/-- Counterexample for claim C6: at the reachable state apuFullCounter
the timer-3 visible counter holds 15, yet one further cycle (whose
divider hits the target, so the counter increments) leaves the counter
at 0, not 15: the counter wraps instead of saturating. -/
theorem timer_counter_not_saturating :
    apuFullCounter.timer3.counter = 15 ∧
    apuFullCounter.timer3.enabled = true ∧
    (Apu.cycle id id apuFullCounter).timer3.counter = 0 := by
  refine ⟨by decide, by decide, by decide⟩

/-- Claim C6 as amended: each timer's visible 4-bit counter wraps modulo
16 rather than saturating: whenever a cycle's divider hits the target,
the new counter value is the old one plus one, masked with 0xf (so 15
steps to 0). -/
theorem timer_counter_wraps {S D : Type} (fS : S → S) (fD : D → D) (a : Apu S D) :
    (a.timer1.int = 0 → a.timer1.enabled = true →
      (a.timer1.div + 1) &&& 0xff = a.timer1.target →
      (Apu.cycle fS fD a).timer1.counter = (a.timer1.counter + 1) &&& 0xf) ∧
    (a.timer2.int = 0 → a.timer2.enabled = true →
      (a.timer2.div + 1) &&& 0xff = a.timer2.target →
      (Apu.cycle fS fD a).timer2.counter = (a.timer2.counter + 1) &&& 0xf) ∧
    (a.timer3.int = 0 → a.timer3.enabled = true →
      (a.timer3.div + 1) &&& 0xff = a.timer3.target →
      (Apu.cycle fS fD a).timer3.counter = (a.timer3.counter + 1) &&& 0xf) := by
  refine ⟨?_, ?_, ?_⟩
  · intro h0 hen ht
    rw [cycle_timer1]
    simp [tickTimer, h0, hen, ht]
  · intro h0 hen ht
    rw [cycle_timer2]
    simp [tickTimer, h0, hen, ht]
  · intro h0 hen ht
    rw [cycle_timer3]
    simp [tickTimer, h0, hen, ht]

/-- Witness for the amended claim C6, at a state whose three timers all
fire on the next cycle with counters 7, 15 and 15. -/
def apuWrapWitnessState : Apu Unit Unit :=
  { apu0 with
    timer1 := ⟨0, 3, 4, 7, true⟩,
    timer2 := ⟨0, 1, 2, 15, true⟩,
    timer3 := ⟨0, 0, 1, 15, true⟩ }

theorem timer_counter_wraps_witness :
    (Apu.cycle id id apuWrapWitnessState).timer1.counter = 8 ∧
    (Apu.cycle id id apuWrapWitnessState).timer2.counter = 0 ∧
    (Apu.cycle id id apuWrapWitnessState).timer3.counter = 0 := by
  have h := timer_counter_wraps id id apuWrapWitnessState
  refine ⟨?_, ?_, ?_⟩
  · rw [h.1 (by decide) (by decide) (by decide)]
    decide
  · rw [h.2.1 (by decide) (by decide) (by decide)]
    decide
  · rw [h.2.2 (by decide) (by decide) (by decide)]
    decide

theorem read_bootrom_window {S D : Type} (dspR : D → Nat → Nat) (a : Apu S D)
    (adr : Nat) (h1 : 0xffc0 ≤ adr) (h2 : adr ≤ 0xffff) :
    (Apu.read dspR a adr).1 =
      if a.dspRomReadable = true then bootRom.getD (adr &&& 0x3f) 0 else a.ram adr := by
  unfold Apu.read
  dsimp only
  rw [and_0xffff_of_le h2]
  rw [if_neg (by omega), if_neg (by omega), if_neg (by omega), if_neg (by omega),
      if_neg (by omega), if_neg (by omega), if_neg (by omega)]
  by_cases hr : a.dspRomReadable = true
  · rw [if_pos ⟨h1, hr⟩, if_pos hr]
  · rw [if_neg (fun hc => hr hc.2), if_neg hr]

/-- Claim C3: a write of v to the APU control register 0xf1 sets the
three timer enables from bits 0..2 (clearing divider and counter on a
disabled-to-enabled transition), clears read-ports 0..1 on bit 4 and
read-ports 2..3 on bit 5, and makes bit 7 decide whether reads in
0xffc0..0xffff see the boot ROM. -/
theorem apu_control_register_layout {S D : Type} (dspW : D → Nat → Nat → D)
    (dspR : D → Nat → Nat) (a : Apu S D) (v : Nat) :
    ((Apu.write dspW a 0xf1 v).timer1.enabled = decide (0 < v &&& 0x01)) ∧
    ((Apu.write dspW a 0xf1 v).timer2.enabled = decide (0 < v &&& 0x02)) ∧
    ((Apu.write dspW a 0xf1 v).timer3.enabled = decide (0 < v &&& 0x04)) ∧
    (a.timer1.enabled = false → 0 < v &&& 0x01 →
      (Apu.write dspW a 0xf1 v).timer1.div = 0 ∧
        (Apu.write dspW a 0xf1 v).timer1.counter = 0) ∧
    (a.timer2.enabled = false → 0 < v &&& 0x02 →
      (Apu.write dspW a 0xf1 v).timer2.div = 0 ∧
        (Apu.write dspW a 0xf1 v).timer2.counter = 0) ∧
    (a.timer3.enabled = false → 0 < v &&& 0x04 →
      (Apu.write dspW a 0xf1 v).timer3.div = 0 ∧
        (Apu.write dspW a 0xf1 v).timer3.counter = 0) ∧
    (0 < v &&& 0x10 →
      (Apu.write dspW a 0xf1 v).spcReadPorts 0 = 0 ∧
        (Apu.write dspW a 0xf1 v).spcReadPorts 1 = 0) ∧
    (0 < v &&& 0x20 →
      (Apu.write dspW a 0xf1 v).spcReadPorts 2 = 0 ∧
        (Apu.write dspW a 0xf1 v).spcReadPorts 3 = 0) ∧
    ((Apu.write dspW a 0xf1 v).dspRomReadable = decide (0 < v &&& 0x80)) ∧
    (∀ adr, 0xffc0 ≤ adr → adr ≤ 0xffff →
      (Apu.read dspR (Apu.write dspW a 0xf1 v) adr).1 =
        if 0 < v &&& 0x80 then bootRom.getD (adr &&& 0x3f) 0
        else (Apu.write dspW a 0xf1 v).ram adr) := by
  have hmask : (0xf1 : Nat) &&& 0xffff = 0xf1 := by decide
  refine ⟨?_, ?_, ?_, ?_, ?_, ?_, ?_, ?_, ?_, ?_⟩
  · simp [Apu.write, hmask]
  · simp [Apu.write, hmask]
  · simp [Apu.write, hmask]
  · intro h1 h2
    rw [Nat.and_one_is_mod] at h2
    simp [Apu.write, hmask, h1, h2]
  · intro h1 h2
    simp [Apu.write, hmask, h1, h2]
  · intro h1 h2
    simp [Apu.write, hmask, h1, h2]
  · intro h
    by_cases h2 : 0 < v &&& 0x20 <;> simp [Apu.write, hmask, h, h2, setIdx]
  · intro h
    by_cases h2 : 0 < v &&& 0x10 <;> simp [Apu.write, hmask, h, h2, setIdx]
  · simp [Apu.write, hmask]
  · intro adr ha1 ha2
    rw [read_bootrom_window dspR _ adr ha1 ha2]
    have hrom : (Apu.write dspW a 0xf1 v).dspRomReadable = decide (0 < v &&& 0x80) := by
      simp [Apu.write, hmask]
    rw [hrom]
    by_cases hb : 0 < v &&& 0x80 <;> simp [hb]

/-- Witness for claim C3: writing 0xb7 (bits 0, 1, 2, 4, 5, 7) to 0xf1
from the reset state. -/
theorem apu_control_register_layout_witness :
    ((Apu.write dspWrite0 apu0 0xf1 0xb7).timer1.enabled = decide (0 < 0xb7 &&& 0x01)) ∧
    (apu0.timer1.enabled = false ∧ 0 < 0xb7 &&& 0x01 ∧
      (Apu.write dspWrite0 apu0 0xf1 0xb7).timer1.div = 0 ∧
      (Apu.write dspWrite0 apu0 0xf1 0xb7).timer1.counter = 0) ∧
    (0 < 0xb7 &&& 0x10 ∧ (Apu.write dspWrite0 apu0 0xf1 0xb7).spcReadPorts 0 = 0) ∧
    ((Apu.write dspWrite0 apu0 0xf1 0xb7).dspRomReadable = decide (0 < 0xb7 &&& 0x80)) ∧
    (0xffc0 ≤ 0xffc5 ∧ 0xffc5 ≤ 0xffff ∧
      (Apu.read dspRead0 (Apu.write dspWrite0 apu0 0xf1 0xb7) 0xffc5).1 =
        if 0 < 0xb7 &&& 0x80 then bootRom.getD (0xffc5 &&& 0x3f) 0
        else (Apu.write dspWrite0 apu0 0xf1 0xb7).ram 0xffc5) := by
  have h := apu_control_register_layout dspWrite0 dspRead0 apu0 0xb7
  refine ⟨h.1, ⟨by decide, by decide, h.2.2.2.1 (by decide) (by decide)⟩,
    ⟨by decide, (h.2.2.2.2.2.2.1 (by decide)).1⟩, h.2.2.2.2.2.2.2.2.1,
    by decide, by decide, h.2.2.2.2.2.2.2.2.2 0xffc5 (by decide) (by decide)⟩

theorem tickTimer_countdown (r n ti td ttg tc : Nat) (te : Bool) (h : n ≤ ti) :
    (tickTimer r)^[n] ⟨ti, td, ttg, tc, te⟩ = ⟨ti - n, td, ttg, tc, te⟩ := by
  induction n generalizing ti with
  | zero => simp
  | succ n ih =>
    rw [Function.iterate_succ_apply]
    have hstep : tickTimer r ⟨ti, td, ttg, tc, te⟩ = ⟨ti - 1, td, ttg, tc, te⟩ := by
      unfold tickTimer
      dsimp only
      rw [if_neg (by omega : ¬ (ti = 0))]
    rw [hstep, ih (ti - 1) (by omega)]
    have he : ti - 1 - n = ti - (n + 1) := by omega
    rw [he]

theorem tickTimer_fire_inc (r td ttg tc : Nat) (hm : td + 1 ≤ 0xff)
    (hne : td + 1 ≠ ttg) :
    tickTimer r ⟨0, td, ttg, tc, true⟩ = ⟨r - 1, td + 1, ttg, tc, true⟩ := by
  unfold tickTimer
  dsimp only
  rw [if_pos rfl, and_0xff_of_lt (by omega), if_neg hne]
  simp

theorem tickTimer_fire_hit (r td ttg tc : Nat) (hm : td + 1 ≤ 0xff)
    (heq : td + 1 = ttg) :
    tickTimer r ⟨0, td, ttg, tc, true⟩ = ⟨r - 1, 0, ttg, (tc + 1) &&& 0xf, true⟩ := by
  unfold tickTimer
  dsimp only
  rw [if_pos rfl, and_0xff_of_lt (by omega), if_pos heq]
  simp

theorem tickTimer_round (r n td ttg tc : Nat) (hr : r = n + 1) (hm : td + 1 < ttg)
    (htg : ttg ≤ 0xff) :
    (tickTimer r)^[r] ⟨0, td, ttg, tc, true⟩ = ⟨0, td + 1, ttg, tc, true⟩ := by
  have h1 : r = n + 1 := hr
  nth_rewrite 2 [h1]
  rw [Function.iterate_succ_apply, tickTimer_fire_inc r td ttg tc (by omega) (by omega)]
  rw [tickTimer_countdown r n (r - 1) (td + 1) ttg tc true (by omega)]
  have he : r - 1 - n = 0 := by omega
  rw [he]

theorem tickTimer_rounds (r n j ttg tc : Nat) (hr : r = n + 1) (hj : j < ttg)
    (htg : ttg ≤ 0xff) :
    (tickTimer r)^[r * j] ⟨0, 0, ttg, tc, true⟩ = ⟨0, j, ttg, tc, true⟩ := by
  induction j with
  | zero => simp
  | succ j ih =>
    have hmul : r * (j + 1) = r + r * j := by ring
    rw [hmul, Function.iterate_add_apply, ih (by omega)]
    exact tickTimer_round r n j ttg tc hr (by omega) htg

theorem tickTimer_to_target (r n k ttg : Nat) (hr : r = n + 1) (hk : k ≤ n)
    (h1 : 1 ≤ ttg) (htg : ttg ≤ 0xff) :
    (tickTimer r)^[r * ttg] ⟨k, 0, ttg, 0, true⟩ = ⟨k, 0, ttg, 1, true⟩ := by
  have hsum : r * ttg = ((n - k) + 1 + r * (ttg - 1)) + k := by
    have e2 : ttg - 1 + 1 = ttg := by omega
    have e1 : r * ttg = r * (ttg - 1) + r := by
      calc r * ttg = r * (ttg - 1 + 1) := by rw [e2]
        _ = r * (ttg - 1) + r := by ring
    omega
  rw [hsum, Function.iterate_add_apply,
      tickTimer_countdown r k k 0 ttg 0 true (by omega),
      Function.iterate_add_apply]
  have hk0 : k - k = 0 := by omega
  rw [hk0, tickTimer_rounds r n (ttg - 1) ttg 0 hr (by omega) htg,
      Function.iterate_add_apply, Function.iterate_one,
      tickTimer_fire_hit r (ttg - 1) ttg 0 (by omega) (by omega)]
  have hc1 : (0 + 1) &&& 0xf = 1 := by decide
  rw [hc1, tickTimer_countdown r (n - k) (r - 1) 0 ttg 1 true (by omega)]
  have he : r - 1 - (n - k) = k := by omega
  rw [he]

theorem cycle_iterate_timer3 {S D : Type} (fS : S → S) (fD : D → D)
    (a : Apu S D) (n : Nat) :
    ((Apu.cycle fS fD)^[n] a).timer3 = (tickTimer 16)^[n] a.timer3 := by
  induction n generalizing a with
  | zero => rfl
  | succ n ih =>
    rw [Function.iterate_succ_apply, Function.iterate_succ_apply, ih, cycle_timer3]

theorem read_ff {S D : Type} (dspR : D → Nat → Nat) (a : Apu S D) :
    Apu.read dspR a 0xff =
      (a.timer3.counter, { a with timer3 := { a.timer3 with counter := 0 } }) := by
  have hmask : (0xff : Nat) &&& 0xffff = 0xff := by decide
  unfold Apu.read
  dsimp only
  rw [hmask]
  simp

/-- Claim C2: with the 16-base timer (timer 3) just enabled (divider and
visible counter zero, countdown in its between-cycle range) and divisor
target T with 0 < T < 256, running Apu.cycle for exactly T * 16 ticks
leaves the visible counter at exactly 1, and a read of register 0xff
then returns 1 and clears the counter to 0. -/
theorem timer3_divisor_determinism {S D : Type} (fS : S → S) (fD : D → D)
    (dspR : D → Nat → Nat) (a : Apu S D) (T : Nat)
    (hT0 : 0 < T) (hT : T < 256)
    (hint : a.timer3.int ≤ 15) (hdiv : a.timer3.div = 0)
    (htg : a.timer3.target = T) (hctr : a.timer3.counter = 0)
    (hen : a.timer3.enabled = true) :
    ((Apu.cycle fS fD)^[T * 16] a).timer3.counter = 1 ∧
    (Apu.read dspR ((Apu.cycle fS fD)^[T * 16] a) 0xff).1 = 1 ∧
    (Apu.read dspR ((Apu.cycle fS fD)^[T * 16] a) 0xff).2.timer3.counter = 0 := by
  have hmk : a.timer3 = ⟨a.timer3.int, 0, T, 0, true⟩ := by
    have e : a.timer3 =
        ⟨a.timer3.int, a.timer3.div, a.timer3.target, a.timer3.counter, a.timer3.enabled⟩ := rfl
    rw [e, hdiv, htg, hctr, hen]
  have hcomm : T * 16 = 16 * T := Nat.mul_comm T 16
  have hcount : ((Apu.cycle fS fD)^[T * 16] a).timer3.counter = 1 := by
    rw [hcomm, cycle_iterate_timer3, hmk,
        tickTimer_to_target 16 15 a.timer3.int T rfl hint hT0 (by omega)]
  refine ⟨hcount, ?_, ?_⟩
  · rw [read_ff]
    exact hcount
  · rw [read_ff]

/-- A concrete just-enabled timer-3 state with divisor target 2 for the
claim C2 witness. -/
def apuT3det : Apu Unit Unit := { apu0 with timer3 := ⟨0, 0, 2, 0, true⟩ }

theorem timer3_divisor_determinism_witness :
    ((Apu.cycle id id)^[2 * 16] apuT3det).timer3.counter = 1 ∧
    (Apu.read dspRead0 ((Apu.cycle id id)^[2 * 16] apuT3det) 0xff).1 = 1 ∧
    (Apu.read dspRead0 ((Apu.cycle id id)^[2 * 16] apuT3det) 0xff).2.timer3.counter = 0 :=
  timer3_divisor_determinism id id dspRead0 apuT3det 2 (by decide) (by decide)
    (by decide) (by decide) (by decide) (by decide) (by decide)

/-! ## Snapshot restore (Apu.setState)

Apu.setState copies the snapshot into the live object field by field, in
source order: the RAM loop, the two port loops, the scalar fields, then
spc.setState and dsp.setState.  A malformed snapshot whose array field
is absent raises a TypeError at that field's length access, after the
earlier fields were already copied into the live object; the embedding
returns the live state at the failure point together with a success
flag.  SS and DS are the snapshot types of the SPC700 and DSP
sub-objects (their setState bodies are in the snes-core bundle); a
missing sub-snapshot likewise fails after every APU-level field was
already overwritten. -/

structure ApuSnapshot (SS DS : Type) where
  ram : Option ByteSeq
  spcWritePorts : Option ByteSeq
  spcReadPorts : Option ByteSeq
  dspAdr : Nat
  dspRomReadable : Bool
  cycles : Nat
  timer1 : Timer
  timer2 : Timer
  timer3 : Timer
  spc : Option SS
  dsp : Option DS

/-- The element-copy loop for(i = 0; i < src.length; i++) dst[i] = src[i]
into a Uint8Array of the given size: in-range elements are overwritten
with the masked source byte, stores past the typed array's size are
dropped. -/
def copyBytes (dst : Nat → Nat) (src : ByteSeq) (size : Nat) : Nat → Nat :=
  fun i => if i < src.length ∧ i < size then src.get i &&& 0xff else dst i

/-- Apu.setState, with its sequential in-place mutation made explicit:
the returned state is the live object at the end or at the point of
failure, and the flag tells whether the restore ran to completion. -/
def Apu.setState {S D SS DS : Type} (spcSet : S → SS → S) (dspSet : D → DS → D)
    (a : Apu S D) (s : ApuSnapshot SS DS) : Apu S D × Bool :=
  match s.ram with
  | none => (a, false)
  | some r =>
    let a1 := { a with ram := copyBytes a.ram r 0x10000 }
    match s.spcWritePorts with
    | none => (a1, false)
    | some wp =>
      let a2 := { a1 with spcWritePorts := copyBytes a1.spcWritePorts wp 4 }
      match s.spcReadPorts with
      | none => (a2, false)
      | some rp =>
        let a3 := { a2 with spcReadPorts := copyBytes a2.spcReadPorts rp 6 }
        let a4 := { a3 with
          dspAdr := s.dspAdr, dspRomReadable := s.dspRomReadable,
          cycles := s.cycles,
          timer1 := s.timer1, timer2 := s.timer2, timer3 := s.timer3 }
        match s.spc with
        | none => (a4, false)
        | some ss =>
          let a5 := { a4 with spc := spcSet a4.spc ss }
          match s.dsp with
          | none => (a5, false)
          | some ds => ({ a5 with dsp := dspSet a5.dsp ds }, true)

/-- A malformed snapshot: RAM present (all bytes 1) but the write-port
array missing, as when a snapshot object lacks the spcWritePorts
field. -/
def badSnapshot : ApuSnapshot Unit Unit :=
  { ram := some ⟨0x10000, fun _ => 1⟩,
    spcWritePorts := none, spcReadPorts := none,
    dspAdr := 0, dspRomReadable := true, cycles := 0,
    timer1 := ⟨0, 0, 0, 0, false⟩, timer2 := ⟨0, 0, 0, 0, false⟩,
    timer3 := ⟨0, 0, 0, 0, false⟩,
    spc := none, dsp := none }

/-- Stand-in for the snes-core Spc.setState and Dsp.setState entry
points over unit sub-states. -/
def subSet0 : Unit → Unit → Unit := fun s _ => s

/-- Counterexample for claim C4: restoring the malformed snapshot
badSnapshot into the reset APU fails, yet the live RAM byte 0 has
already been overwritten with the snapshot's value 1 — the failed
restore does not leave the machine state as it was. -/
theorem setState_failure_mutates_state :
    (Apu.setState subSet0 subSet0 apu0 badSnapshot).2 = false ∧
    (Apu.setState subSet0 subSet0 apu0 badSnapshot).1.ram 0 = 1 ∧
    apu0.ram 0 = 0 := by
  refine ⟨by decide, by decide, by decide⟩

/-- Claim C4 as amended: Apu.setState mutates the live object directly
with no scratch copy, so a restore that fails partway (here: the
write-port array missing from the snapshot) leaves the fields already
processed — the whole RAM — holding the snapshot's bytes, and only the
not-yet-processed fields unchanged. -/
theorem setState_failure_partial_mutation {S D SS DS : Type}
    (spcSet : S → SS → S) (dspSet : D → DS → D)
    (a : Apu S D) (s : ApuSnapshot SS DS) (r : ByteSeq)
    (hr : s.ram = some r) (hw : s.spcWritePorts = none) :
    Apu.setState spcSet dspSet a s =
      ({ a with ram := copyBytes a.ram r 0x10000 }, false) := by
  unfold Apu.setState
  rw [hr, hw]

theorem setState_failure_partial_mutation_witness :
    badSnapshot.ram = some ⟨0x10000, fun _ => 1⟩ ∧
    badSnapshot.spcWritePorts = none ∧
    Apu.setState subSet0 subSet0 apu0 badSnapshot =
      ({ apu0 with ram := copyBytes apu0.ram ⟨0x10000, fun _ => 1⟩ 0x10000 }, false) :=
  ⟨rfl, rfl,
    setState_failure_partial_mutation subSet0 subSet0 apu0 badSnapshot
      ⟨0x10000, fun _ => 1⟩ rfl rfl⟩

/-! ## Fast-frame scheduling (EmulatorService)

pressButtonAsync and waitFramesAsync advance framesProcessed from 0 to
durationFrames - 1 and, per iteration, run a full doFrame when
framesProcessed % PPU_SYNC_INTERVAL === 0 and the cheap doFrameFast
otherwise.  The time-budget chunking around the loop does not change
which frame index takes which path, so the schedule is the per-index
choice alone (true = full doFrame, false = doFrameFast). -/

def PPU_SYNC_INTERVAL : Nat := 60

/-- The frame kind chosen by the loop body of pressButtonAsync at frame
index i. -/
def pressButtonFrameIsFull (i : Nat) : Bool := i % PPU_SYNC_INTERVAL == 0

/-- The frame kind chosen by the loop body of waitFramesAsync at frame
index i. -/
def waitFramesFrameIsFull (i : Nat) : Bool := i % PPU_SYNC_INTERVAL == 0

/-- The schedule of frame kinds for a pressButtonAsync run. -/
def pressButtonSchedule (durationFrames : Nat) : List Bool :=
  (List.range durationFrames).map pressButtonFrameIsFull

/-- The schedule of frame kinds for a waitFramesAsync run. -/
def waitFramesSchedule (durationFrames : Nat) : List Bool :=
  (List.range durationFrames).map waitFramesFrameIsFull

theorem mod_sync_full_frame_exists (n start : Nat)
    (h : start + PPU_SYNC_INTERVAL ≤ n) :
    ∃ i, start ≤ i ∧ i < start + PPU_SYNC_INTERVAL ∧ i < n ∧
      i % PPU_SYNC_INTERVAL = 0 := by
  refine ⟨PPU_SYNC_INTERVAL * ((start + PPU_SYNC_INTERVAL - 1) / PPU_SYNC_INTERVAL),
    ?_, ?_, ?_, ?_⟩ <;> simp only [PPU_SYNC_INTERVAL] at h ⊢ <;> omega

/-- Claim C9: in any run of durationFrames fast-mode frames driven by
pressButtonAsync or waitFramesAsync, every window of 60 consecutive
frame indices contains at least one index on which the full doFrame path
runs (the other indices may take doFrameFast). -/
theorem ppu_sync_interval_full_frame (durationFrames start : Nat)
    (h : start + PPU_SYNC_INTERVAL ≤ durationFrames) :
    ∃ i, start ≤ i ∧ i < start + PPU_SYNC_INTERVAL ∧
      (pressButtonSchedule durationFrames).getD i false = true ∧
      (waitFramesSchedule durationFrames).getD i false = true := by
  obtain ⟨i, h1, h2, h3, h4⟩ := mod_sync_full_frame_exists durationFrames start h
  refine ⟨i, h1, h2, ?_, ?_⟩
  · simp [pressButtonSchedule, pressButtonFrameIsFull, List.getD, h3, h4]
  · simp [waitFramesSchedule, waitFramesFrameIsFull, List.getD, h3, h4]

theorem ppu_sync_interval_full_frame_witness :
    30 + PPU_SYNC_INTERVAL ≤ 120 ∧
    ∃ i, 30 ≤ i ∧ i < 30 + PPU_SYNC_INTERVAL ∧
      (pressButtonSchedule 120).getD i false = true ∧
      (waitFramesSchedule 120).getD i false = true :=
  ⟨by decide, ppu_sync_interval_full_frame 120 30 (by decide)⟩

end McpSnes
